import Mathlib

/-!
Shallow embedding of the `line-messaging-rs` crate (a LINE-bot webhook
adapter) for checking its natural-language specification.

Sources embedded here:
* `src/event.rs`   — the typed webhook event model and `get_reply_token`;
* `src/reply.rs`   — the `Reply` payload, `Reply::new`, and the reply sender;
* `src/oauth.rs`   — `issue_access_token` and `OAuthError`;
* `src/request.rs` — `RequestBody` and its `TryFrom<String>` parse;
* `src/api.rs`     — `Channel`, `MessagingApi` (registry, `sign`,
  `handle_event`, `get_access_token`) and `LinebotError`.

Modelling conventions:
* The HTTP transport (`reqwest`) is external to the crate; every function
  that performs network I/O is parameterised by the transport's outcome: a
  `send` function returning `Except ReqwestError HttpResponse`, and (for the
  OAuth endpoint) JSON decoders returning `Option`.
* Rust panics (`unwrap` / `expect`) are made observable with the `Outcome`
  type, whose `panicked` constructor models an uncaught fault.
* `HashMap<usize, Mutex<Channel>>` is modelled as the function
  `Nat → Option Channel`; the embedding is single-threaded, so the `Mutex`
  wrappers (whose locks never fail in a single-threaded run) are dropped and
  interior mutation becomes an explicit registry update.
* The boxed handler trait object (`dyn HandleWebhookEvent`) takes `&mut self`
  in Rust; no claim observes handler-internal state, so the handler is
  embedded as the pure capability `WebhookEvent → Option Reply`.
* `serde_json::Number` is modelled by its literal text, since no embedded
  operation inspects numeric values.
* Functions that record which replies were handed to the transport return,
  as extra instrumentation, the list of `(access token, reply)` pairs passed
  to the reply sender and the number of handler / issuance invocations.
-/

/-- `serde_json::Number`, kept as its literal text (never inspected). -/
structure Number where
  raw : String
deriving Repr, DecidableEq

namespace Event

/-- `event.rs::Source` — the webhook event source descriptor. -/
inductive Source where
  | User (user_id : String)
  | Group (group_id : String) (user_id : Option String)
  | Room (room_id : String) (user_id : Option String)
deriving Repr, DecidableEq

/-- `event.rs::EventCommonProperty` — fields shared by every event kind. -/
structure EventCommonProperty where
  reply_token : Option String
  timestamp : Number
  source : Source
deriving Repr, DecidableEq

/-- `event.rs::ContentProvider`. -/
inductive ContentProvider where
  | Line
  | External (original_content_url : String) (preview_image_url : Option String)
deriving Repr, DecidableEq

/-- `event.rs::WebhookMessage` — the message payload sub-variants. -/
inductive WebhookMessage where
  | Text (id : String) (text : String)
  | Image (id : String) (content_provider : ContentProvider)
  | Video (id : String) (duration : Number) (content_provider : ContentProvider)
  | Audio (id : String) (duration : Number) (content_provider : ContentProvider)
  | File (id : String) (file_name : String) (file_size : Number)
  | Location (id : String) (title : String) (address : String)
      (latitude : Number) (longitude : Number)
  | Sticker (id : String) (package_id : String) (sticker_id : String)
deriving Repr, DecidableEq

/-- `event.rs::Joined`. -/
structure Joined where
  members : List Source
deriving Repr, DecidableEq

/-- `event.rs::Left`. -/
structure Left where
  members : List Source
deriving Repr, DecidableEq

/-- `event.rs::Params`. -/
inductive Params where
  | Date (d : String)
  | Time (t : String)
  | Datetime (dt : String)
deriving Repr, DecidableEq

/-- `event.rs::Postback`. -/
structure Postback where
  data : String
  params : Params
deriving Repr, DecidableEq

/-- `event.rs::BeaconCommonProperty`. -/
structure BeaconCommonProperty where
  hwid : String
  dm : Option String
deriving Repr, DecidableEq

/-- `event.rs::Beacon`. -/
inductive Beacon where
  | Enter (property : BeaconCommonProperty)
  | Leave (property : BeaconCommonProperty)
  | Banner (property : BeaconCommonProperty)
deriving Repr, DecidableEq

/-- `event.rs::LinkResult`. -/
inductive LinkResult where
  | Ok
  | Failed
deriving Repr, DecidableEq

/-- `event.rs::Link`. -/
structure Link where
  result : LinkResult
  nonce : String
deriving Repr, DecidableEq

/-- `event.rs::Things`. -/
inductive Things where
  | Link (device_id : String)
  | Unlink (device_id : String)
deriving Repr, DecidableEq

/-- `event.rs::WebhookEvent` — one parsed webhook event, tagged by kind. -/
inductive WebhookEvent where
  | Message (property : EventCommonProperty) (message : WebhookMessage)
  | Follow (property : EventCommonProperty)
  | Unfollow (property : EventCommonProperty)
  | Join (property : EventCommonProperty)
  | Leave (property : EventCommonProperty)
  | MemberJoined (property : EventCommonProperty) (joined : Joined)
  | MemberLeft (property : EventCommonProperty) (left : Left)
  | Postback (property : EventCommonProperty) (postback : Postback)
  | Beacon (property : EventCommonProperty) (beacon : Beacon)
  | AccountLink (property : EventCommonProperty) (link : Link)
  | Things (property : EventCommonProperty) (things : Things)
deriving Repr, DecidableEq

/-- `event.rs::WebhookEvent::get_reply_token` — extract the common
property's optional reply token, whatever the event kind. -/
def WebhookEvent.get_reply_token : WebhookEvent → Option String
  | .Message property _ => property.reply_token
  | .Follow property => property.reply_token
  | .Unfollow property => property.reply_token
  | .Join property => property.reply_token
  | .Leave property => property.reply_token
  | .MemberJoined property _ => property.reply_token
  | .MemberLeft property _ => property.reply_token
  | .Postback property _ => property.reply_token
  | .Beacon property _ => property.reply_token
  | .AccountLink property _ => property.reply_token
  | .Things property _ => property.reply_token

end Event

open Event

/-- `reply.rs::ReplyMessage`. -/
inductive ReplyMessage where
  | Text (text : String)
deriving Repr, DecidableEq

/-- `reply.rs::Reply` — the outbound reply payload. -/
structure Reply where
  reply_token : String
  messages : List ReplyMessage
  notification_disabled : Bool
deriving Repr, DecidableEq

/-- `reply.rs::Reply::new` — constructs a reply with the empty reply-token
placeholder (`reply_token` is `pub(crate)`, so crate-external handlers can
only obtain a `Reply` through this constructor). -/
def Reply.new (messages : List ReplyMessage) (notification_disabled : Bool) : Reply :=
  { reply_token := "", messages := messages, notification_disabled := notification_disabled }

/-- The opaque `reqwest::Error` transport error, modelled by its message. -/
structure ReqwestError where
  message : String
deriving Repr, DecidableEq

/-- The observable part of a `reqwest::Response`: status code and body. -/
structure HttpResponse where
  status : Nat
  body : String
deriving Repr, DecidableEq

/-- Result of running a Rust function whose body may panic: `ok`, an
explicit `Err` value, or an uncaught panic carrying the panic message. -/
inductive Outcome (ε α : Type) where
  | ok (a : α)
  | error (e : ε)
  | panicked (msg : String)
deriving Repr, DecidableEq

/-- `oauth.rs::OAuthError`. -/
inductive OAuthError where
  | ErrorResponse (error : String) (error_description : Option String)
  | Reqwest (err : ReqwestError)
  | UnexpectedStatusResponse (status : Nat)
deriving Repr, DecidableEq

/-- `oauth.rs::ResponseBody` — decoded 200 response of the token endpoint. -/
structure ResponseBody where
  access_token : String
  expires_in : Number
  token_type : String
deriving Repr, DecidableEq

/-- `oauth.rs::ErrorResponseBody` — decoded 400 response of the token
endpoint. -/
structure ErrorResponseBody where
  error : String
  error_description : Option String
deriving Repr, DecidableEq

/-- `oauth.rs::issue_access_token`, with the transport made explicit:
`send` receives the form fields posted to the token endpoint, and the two
decoders model `Response::json` for the 200 and 400 bodies. The `.unwrap()`
calls of the source on the send result and on both `json()` results are
modelled as `panicked` outcomes. -/
def o_auth.issue_access_token
    (send : List (String × String) → Except ReqwestError HttpResponse)
    (decodeBody : String → Option ResponseBody)
    (decodeErrorBody : String → Option ErrorResponseBody)
    (channel_id : Nat) (channel_secret : String) : Outcome OAuthError String :=
  match send [("grant_type", "client_credentials"),
              ("client_id", toString channel_id),
              ("client_secret", channel_secret)] with
  | .error _ => .panicked "called Result::unwrap on an Err value"
  | .ok res =>
    if res.status = 200 then
      match decodeBody res.body with
      | none => .panicked "called Result::unwrap on an Err value"
      | some res_body => .ok res_body.access_token
    else if res.status = 400 then
      match decodeErrorBody res.body with
      | none => .panicked "called Result::unwrap on an Err value"
      | some e_res_body =>
          .error (.ErrorResponse e_res_body.error e_res_body.error_description)
    else
      .error (.UnexpectedStatusResponse res.status)

/-- `reply.rs::ReplyError`. -/
inductive ReplyError where
  | Reqwest (err : ReqwestError)
deriving Repr, DecidableEq

/-- `reply.rs::reply`, with the transport made explicit: `send` receives the
bearer access token and the JSON-serialised reply. The source calls
`.expect(...)` on the send result (modelled as `panicked`) and then returns
`Ok(())` unconditionally — a non-200 status is only logged, never returned
as an error. -/
def reply.reply (send : String → Reply → Except ReqwestError HttpResponse)
    (access_token : String) (r : Reply) : Outcome ReplyError Unit :=
  match send access_token r with
  | .error _ => .panicked "リプライのリクエストでエラー発生"
  | .ok _ => .ok ()

/-- `request.rs::RequestBody` — one parsed webhook delivery. -/
structure RequestBody where
  destination : String
  events : List WebhookEvent
  src : String
deriving Repr, DecidableEq

/-- `request.rs::RequestBodyError` (`serde_json::Error` kept as text). -/
inductive RequestBodyError where
  | Parse (msg : String)
deriving Repr, DecidableEq

/-- `request.rs::TryFrom<String> for RequestBody` — parse the JSON body
(`parseJson` models `serde_json::from_str`) and retain the exact received
text in `src`. -/
def RequestBody.try_from
    (parseJson : String → Except RequestBodyError RequestBody)
    (s : String) : Except RequestBodyError RequestBody :=
  match parseJson s with
  | .error e => .error e
  | .ok body => .ok { body with src := s }

/-- `api.rs::Channel` — a registered bot credential unit. The handler is
the pure capability form of `Box<dyn HandleWebhookEvent + Send>`. -/
structure Channel where
  id : Nat
  secret : String
  user_id : String
  access_token : Option String
  handler : WebhookEvent → Option Reply

/-- `api.rs::Channel::new`. -/
def Channel.new (id : Nat) (secret : String) (user_id : String)
    (access_token : Option String) (handler : WebhookEvent → Option Reply) : Channel :=
  { id := id, secret := secret, user_id := user_id,
    access_token := access_token, handler := handler }

/-- `api.rs::Channel::handle_event` — run the handler; if it produces a
reply and the event carries a reply token, stitch that token into the
reply. When the event carries no reply token the reply is returned with
whatever token the handler left in it. -/
def Channel.handle_event (c : Channel) (event : WebhookEvent) : Option Reply :=
  match c.handler event with
  | none => none
  | some reply =>
    match event.get_reply_token with
    | some token => some { reply with reply_token := token }
    | none => some reply

/-- The message carried by `LinebotError::Destination` in
`api.rs::MessagingApi::get_channel`. -/
def destination_error_message : String :=
  "宛先チャンネルIDに該当するチャンネルが存在しません。"

/-- The message carried by `LinebotError::Signature` in
`api.rs::MessagingApi::sign`. -/
def signature_error_message : String :=
  "webhookリクエストの署名検証の結果、リクエスト元の正当性を確認できませんでした。"

/-- `api.rs::LinebotError`. -/
inductive LinebotError where
  | Destination (msg : String)
  | Signature (msg : String)
  | OAuth (err : OAuthError)
  | Reply (err : ReplyError)
deriving Repr, DecidableEq

/-- Modelled from the spec: the external `signature` crate's `Algorithm`
(its source is not in this repository). `HmacSha256Base64` carries the
channel secret used as HMAC key. -/
inductive Algorithm where
  | HmacSha256Base64 (secret : String)

/-- Modelled from the spec: `Algorithm::verify` of the external `signature`
crate — "computes a keyed hash (HMAC using a SHA-256-based algorithm) over
`message` using `secret` as key, base64-encodes the result, and compares it
to `digest`". The keyed-hash-then-base64 computation itself is the
parameter `hmacSha256Base64`; `verify` is the comparison with `digest`. -/
def Algorithm.verify (hmacSha256Base64 : String → String → List Nat) :
    Algorithm → String → List Nat → Bool
  | .HmacSha256Base64 secret, message, digest => digest = hmacSha256Base64 secret message

/-- `api.rs::MessagingApi` — the channel registry.
`HashMap<usize, Mutex<Channel>>` is modelled by its lookup function. -/
structure MessagingApi where
  channels : Nat → Option Channel

/-- `api.rs::MessagingApi::new`. -/
def MessagingApi.new : MessagingApi :=
  { channels := fun _ => none }

/-- `api.rs::MessagingApi::add_channel` — `HashMap::insert` keyed by
`channel.id`: an existing entry under the same key is replaced. -/
def MessagingApi.add_channel (api : MessagingApi) (channel : Channel) : MessagingApi :=
  { channels := fun k => if k = channel.id then some channel else api.channels k }

/-- Writing back a channel's mutated interior (the `Mutex<Channel>` cell)
under its registry key. -/
def MessagingApi.set (api : MessagingApi) (channel_id : Nat) (channel : Channel) :
    MessagingApi :=
  { channels := fun k => if k = channel_id then some channel else api.channels k }

/-- `api.rs::MessagingApi::get_channel` — registry lookup; an unknown key
is a `Destination` error. -/
def MessagingApi.get_channel (api : MessagingApi) (channel_id : Nat) :
    Except LinebotError Channel :=
  match api.channels channel_id with
  | some channel => .ok channel
  | none => .error (.Destination destination_error_message)

/-- `api.rs::MessagingApi::sign` — resolve the channel, then verify the
HMAC-SHA256-BASE64 signature of `message` against `digest` with the
channel's secret as key. -/
def MessagingApi.sign (api : MessagingApi)
    (hmacSha256Base64 : String → String → List Nat)
    (channel_id : Nat) (message : String) (digest : List Nat) :
    Except LinebotError Unit :=
  match api.get_channel channel_id with
  | .error e => .error e
  | .ok channel =>
    let algorithm := Algorithm.HmacSha256Base64 channel.secret
    if algorithm.verify hmacSha256Base64 message digest then
      .ok ()
    else
      .error (.Signature signature_error_message)

/-- `api.rs::MessagingApi::get_access_token` — return the cached token if
present; otherwise call `o_auth::issue_access_token` with the channel's id
and secret, cache the token on success, and propagate errors (via
`From<OAuthError>`) leaving the cache untouched. Returns the resulting
channel state and, as instrumentation, the number of issuance calls. -/
def MessagingApi.get_access_token
    (send : List (String × String) → Except ReqwestError HttpResponse)
    (decodeBody : String → Option ResponseBody)
    (decodeErrorBody : String → Option ErrorResponseBody)
    (channel : Channel) : Outcome LinebotError String × Channel × Nat :=
  match channel.access_token with
  | some token => (.ok token, channel, 0)
  | none =>
    match o_auth.issue_access_token send decodeBody decodeErrorBody
        channel.id channel.secret with
    | .panicked msg => (.panicked msg, channel, 1)
    | .error e => (.error (.OAuth e), channel, 1)
    | .ok token => (.ok token, { channel with access_token := some token }, 1)

/-- `api.rs::MessagingApi::handle_event` — resolve the channel, run its
handler on the event; if a reply is produced, obtain an access token and
send the reply. Returns the updated registry and, as instrumentation, the
`(access token, reply)` pairs handed to the reply sender and the number of
handler invocations. -/
def MessagingApi.handle_event (api : MessagingApi)
    (send : List (String × String) → Except ReqwestError HttpResponse)
    (decodeBody : String → Option ResponseBody)
    (decodeErrorBody : String → Option ErrorResponseBody)
    (sendReply : String → Reply → Except ReqwestError HttpResponse)
    (channel_id : Nat) (event : WebhookEvent) :
    Outcome LinebotError Unit × MessagingApi × List (String × Reply) × Nat :=
  match api.get_channel channel_id with
  | .error e => (.error e, api, [], 0)
  | .ok channel =>
    match channel.handle_event event with
    | none => (.ok (), api, [], 1)
    | some r =>
      match MessagingApi.get_access_token send decodeBody decodeErrorBody channel with
      | (.panicked msg, channel', _) => (.panicked msg, api.set channel_id channel', [], 1)
      | (.error e, channel', _) => (.error e, api.set channel_id channel', [], 1)
      | (.ok token, channel', _) =>
        let api' := api.set channel_id channel'
        match reply.reply sendReply token r with
        | .panicked msg => (.panicked msg, api', [(token, r)], 1)
        | .error e => (.error (.Reply e), api', [(token, r)], 1)
        | .ok _ => (.ok (), api', [(token, r)], 1)

/-- Modelled from the spec: the webhook pipeline's error taxonomy (§4.3,
§7) — a parse failure or one of the crate's `LinebotError` cases. The
orchestrator itself is absent from `src/`; only its pieces
(`RequestBody::try_from`, `MessagingApi::sign`, `MessagingApi::handle_event`)
are there. -/
inductive PipelineError where
  | RequestBody (e : RequestBodyError)
  | Linebot (e : LinebotError)
deriving Repr, DecidableEq

/-- Modelled from the spec: step 4/5 of the §4.3 pipeline — dispatch the
parsed events in original order through `MessagingApi::handle_event`,
aborting the remaining events at the first failure and surfacing that first
error. Accumulates the instrumentation of each dispatch. -/
def MessagingApi.dispatch_events (api : MessagingApi)
    (send : List (String × String) → Except ReqwestError HttpResponse)
    (decodeBody : String → Option ResponseBody)
    (decodeErrorBody : String → Option ErrorResponseBody)
    (sendReply : String → Reply → Except ReqwestError HttpResponse)
    (channel_id : Nat) :
    List WebhookEvent → Outcome LinebotError Unit × MessagingApi × List (String × Reply) × Nat
  | [] => (.ok (), api, [], 0)
  | event :: rest =>
    match api.handle_event send decodeBody decodeErrorBody sendReply channel_id event with
    | (.ok _, api', sent, n) =>
      match api'.dispatch_events send decodeBody decodeErrorBody sendReply channel_id rest with
      | (out, api'', sent', n') => (out, api'', sent ++ sent', n + n')
    | (.error e, api', sent, n) => (.error e, api', sent, n)
    | (.panicked msg, api', sent, n) => (.panicked msg, api', sent, n)

/-- Modelled from the spec: the §4.3 `handle_webhook` orchestrator, which
is absent from `src/`. In order: parse the raw body retaining the exact
received text (`RequestBody::try_from`), resolve the channel key from the
parsed destination (`key` models the deployment-mode keying of §3), verify
the signature over the retained raw text (`MessagingApi::sign`, which
itself resolves the channel), and only then dispatch the events; failure at
any stage is terminal for the delivery. -/
def handle_webhook (api : MessagingApi) (key : String → Nat)
    (hmacSha256Base64 : String → String → List Nat)
    (send : List (String × String) → Except ReqwestError HttpResponse)
    (decodeBody : String → Option ResponseBody)
    (decodeErrorBody : String → Option ErrorResponseBody)
    (sendReply : String → Reply → Except ReqwestError HttpResponse)
    (parseJson : String → Except RequestBodyError RequestBody)
    (raw_body : String) (digest : List Nat) :
    Outcome PipelineError Unit × MessagingApi × List (String × Reply) × Nat :=
  match RequestBody.try_from parseJson raw_body with
  | .error e => (.error (.RequestBody e), api, [], 0)
  | .ok body =>
    let channel_id := key body.destination
    match api.sign hmacSha256Base64 channel_id body.src digest with
    | .error e => (.error (.Linebot e), api, [], 0)
    | .ok _ =>
      match api.dispatch_events send decodeBody decodeErrorBody sendReply
          channel_id body.events with
      | (.ok _, api', sent, n) => (.ok (), api', sent, n)
      | (.error e, api', sent, n) => (.error (.Linebot e), api', sent, n)
      | (.panicked msg, api', sent, n) => (.panicked msg, api', sent, n)

/-! Concrete fixtures used by the witness and counterexample theorems. -/

/-- A reply as a handler builds it: `Reply::new`, token placeholder `""`. -/
def fixtureReply : Reply := Reply.new [ReplyMessage.Text "hi"] false

/-- A handler that always replies with `fixtureReply`. -/
def fixtureHandler : WebhookEvent → Option Reply := fun _ => some fixtureReply

/-- A handler that never replies. -/
def silentHandler : WebhookEvent → Option Reply := fun _ => none

/-- A follow event carrying reply token `"tok1"`. -/
def followEvent : WebhookEvent :=
  .Follow { reply_token := some "tok1", timestamp := { raw := "0" }, source := .User "U1" }

/-- An unfollow event carrying no reply token. -/
def unfollowEvent : WebhookEvent :=
  .Unfollow { reply_token := none, timestamp := { raw := "0" }, source := .User "U1" }

/-- A channel with a cached access token. -/
def cachedChannel : Channel :=
  Channel.new 1 "secret" "U" (some "cached-token") fixtureHandler

/-- A channel with no cached access token. -/
def coldChannel : Channel := Channel.new 1 "secret" "U" none fixtureHandler

/-- A different channel registered under the same key as `cachedChannel`. -/
def replacementChannel : Channel := Channel.new 1 "secret2" "U2" none silentHandler

/-- A registry holding just `cachedChannel`. -/
def fixtureApi : MessagingApi := MessagingApi.new.add_channel cachedChannel

/-- Reply transport answering 200. -/
def sendReplyOk : String → Reply → Except ReqwestError HttpResponse :=
  fun _ _ => .ok { status := 200, body := "OK" }

/-- Reply transport answering 500. -/
def sendReply500 : String → Reply → Except ReqwestError HttpResponse :=
  fun _ _ => .ok { status := 500, body := "ERR" }

/-- Reply transport failing at the transport level. -/
def sendReplyFail : String → Reply → Except ReqwestError HttpResponse :=
  fun _ _ => .error { message := "connection refused" }

/-- Token-endpoint transport answering 200. -/
def sendForm200 : List (String × String) → Except ReqwestError HttpResponse :=
  fun _ => .ok { status := 200, body := "BODY" }

/-- Token-endpoint transport answering 500. -/
def sendForm500 : List (String × String) → Except ReqwestError HttpResponse :=
  fun _ => .ok { status := 500, body := "" }

/-- Token-endpoint transport failing at the transport level. -/
def sendFormFail : List (String × String) → Except ReqwestError HttpResponse :=
  fun _ => .error { message := "connection refused" }

/-- 200-body decoder yielding the token `"issued-token"`. -/
def decodeBody0 : String → Option ResponseBody :=
  fun _ => some { access_token := "issued-token", expires_in := { raw := "2592000" },
                  token_type := "Bearer" }

/-- 200-body decoder that fails to decode. -/
def decodeBodyFail : String → Option ResponseBody := fun _ => none

/-- 400-body decoder yielding a structured error. -/
def decodeErrorBody0 : String → Option ErrorResponseBody :=
  fun _ => some { error := "invalid_client", error_description := none }

/-- A concrete stand-in for the HMAC-SHA256-then-base64 keyed hash. -/
def hmac0 : String → String → List Nat := fun s m => [s.length, m.length]

/-- Parser fixture: every body parses to destination `"U123"` with one
follow event (`src` is then overwritten with the received text). -/
def parseJson0 : String → Except RequestBodyError RequestBody :=
  fun _ => .ok { destination := "U123", events := [followEvent], src := "ignored" }

/-- Key fixture: every destination maps to channel key 1. -/
def key0 : String → Nat := fun _ => 1

/-- C5: for every event whose reply token is `some t` and whose handler
returns a reply `r`, `Channel::handle_event` produces `r` with
`reply_token` set to `t` — the originating event's reply token is stitched
into the reply. -/
theorem c5_reply_token_stitched (c : Channel) (event : WebhookEvent) (t : String) (r : Reply)
    (h1 : event.get_reply_token = some t) (h2 : c.handler event = some r) :
    c.handle_event event = some { r with reply_token := t } := by
  unfold Channel.handle_event
  rw [h2, h1]

/-- C5 witness: a follow event carrying token `"tok1"` yields the handler's
reply with `reply_token = "tok1"`. -/
theorem c5_reply_token_stitched_witness :
    cachedChannel.handle_event followEvent
      = some { reply_token := "tok1", messages := [ReplyMessage.Text "hi"],
               notification_disabled := false } :=
  c5_reply_token_stitched cachedChannel followEvent "tok1" fixtureReply rfl rfl

/-- C6: registering a second channel under an already-used key replaces the
first entry without error — a subsequent lookup by that key yields the
second channel (hence its secret and handler). -/
theorem c6_register_replaces (api : MessagingApi) (c1 c2 : Channel) (h : c1.id = c2.id) :
    ((api.add_channel c1).add_channel c2).get_channel c2.id = .ok c2 := by
  unfold MessagingApi.get_channel MessagingApi.add_channel
  simp

/-- C6 witness: `replacementChannel` registered after `cachedChannel` under
key 1 is what lookup of key 1 returns. -/
theorem c6_register_replaces_witness :
    ((MessagingApi.new.add_channel cachedChannel).add_channel replacementChannel).get_channel 1
      = .ok replacementChannel :=
  c6_register_replaces MessagingApi.new cachedChannel replacementChannel rfl

/-- C7: resolving a key with no registered channel returns the
`Destination` error — never a default channel and never a panic (the
embedding of `get_channel` has no panic outcome at all). -/
theorem c7_unknown_destination (api : MessagingApi) (key : Nat)
    (h : api.channels key = none) :
    api.get_channel key = .error (.Destination destination_error_message) := by
  unfold MessagingApi.get_channel
  rw [h]

/-- C7 witness: the empty registry rejects key 42 with the `Destination`
error. -/
theorem c7_unknown_destination_witness :
    MessagingApi.new.get_channel 42 = .error (.Destination destination_error_message) :=
  c7_unknown_destination MessagingApi.new 42 rfl

/-- C4: `get_access_token` returns the cached token with no issuance call
when `access_token` is `Some`; when it is `None` it calls issuance exactly
once with the channel's id and secret, and on success stores the returned
token and returns it, so a second call on the resulting channel performs no
further issuance. -/
theorem c4_token_cached_and_issued_once
    (send : List (String × String) → Except ReqwestError HttpResponse)
    (decodeBody : String → Option ResponseBody)
    (decodeErrorBody : String → Option ErrorResponseBody)
    (channel : Channel) :
    (∀ t, channel.access_token = some t →
      MessagingApi.get_access_token send decodeBody decodeErrorBody channel
        = (.ok t, channel, 0))
    ∧ (∀ tok, channel.access_token = none →
        o_auth.issue_access_token send decodeBody decodeErrorBody
            channel.id channel.secret = .ok tok →
        MessagingApi.get_access_token send decodeBody decodeErrorBody channel
            = (.ok tok, { channel with access_token := some tok }, 1)
          ∧ MessagingApi.get_access_token send decodeBody decodeErrorBody
              { channel with access_token := some tok }
            = (.ok tok, { channel with access_token := some tok }, 0)) := by
  constructor
  · intro t ht
    unfold MessagingApi.get_access_token
    rw [ht]
  · intro tok hn hi
    constructor
    · unfold MessagingApi.get_access_token
      rw [hn, hi]
    · unfold MessagingApi.get_access_token
      rfl

/-- C4 witness: a cold channel issues once, caches `"issued-token"`, and
the second call reuses the cache with no issuance. -/
theorem c4_token_cached_and_issued_once_witness :
    MessagingApi.get_access_token sendForm200 decodeBody0 decodeErrorBody0 coldChannel
      = (.ok "issued-token", { coldChannel with access_token := some "issued-token" }, 1)
    ∧ MessagingApi.get_access_token sendForm200 decodeBody0 decodeErrorBody0
        { coldChannel with access_token := some "issued-token" }
      = (.ok "issued-token", { coldChannel with access_token := some "issued-token" }, 0) :=
  (c4_token_cached_and_issued_once sendForm200 decodeBody0 decodeErrorBody0
      coldChannel).2 "issued-token" rfl rfl

/-- C10: when the cache is empty and issuance fails, `get_access_token`
returns the issuance error (wrapped as `LinebotError::OAuth`) and leaves
the channel — in particular its still-empty token cache — unchanged. -/
theorem c10_issue_error_leaves_cache_empty
    (send : List (String × String) → Except ReqwestError HttpResponse)
    (decodeBody : String → Option ResponseBody)
    (decodeErrorBody : String → Option ErrorResponseBody)
    (channel : Channel) (e : OAuthError)
    (hn : channel.access_token = none)
    (hi : o_auth.issue_access_token send decodeBody decodeErrorBody
        channel.id channel.secret = .error e) :
    MessagingApi.get_access_token send decodeBody decodeErrorBody channel
      = (.error (.OAuth e), channel, 1) := by
  unfold MessagingApi.get_access_token
  rw [hn, hi]

/-- C10 witness: a 500 from the token endpoint surfaces as
`OAuth (UnexpectedStatusResponse 500)` and the cold channel is returned
unchanged. -/
theorem c10_issue_error_leaves_cache_empty_witness :
    MessagingApi.get_access_token sendForm500 decodeBody0 decodeErrorBody0 coldChannel
      = (.error (.OAuth (.UnexpectedStatusResponse 500)), coldChannel, 1) :=
  c10_issue_error_leaves_cache_empty sendForm500 decodeBody0 decodeErrorBody0
    coldChannel (.UnexpectedStatusResponse 500) rfl rfl

/-- C2: evaluating the code at transport-failure inputs — a failing HTTP
send makes `issue_access_token` panic (the source unwraps the send result),
a 200 response whose body fails to decode makes it panic (the source
unwraps `json()`), and a failing send makes `reply` panic (the source calls
`expect`); none of these returns the wrapped transport error that the
`OAuthError::Reqwest` / `ReplyError::Reqwest` variants exist for. -/
theorem c2_transport_failure_panics :
    o_auth.issue_access_token sendFormFail decodeBody0 decodeErrorBody0 1 "secret"
      = .panicked "called Result::unwrap on an Err value"
    ∧ o_auth.issue_access_token sendForm200 decodeBodyFail decodeErrorBody0 1 "secret"
      = .panicked "called Result::unwrap on an Err value"
    ∧ reply.reply sendReplyFail "cached-token" fixtureReply
      = .panicked "リプライのリクエストでエラー発生" :=
  ⟨rfl, rfl, rfl⟩

/-- C3 counterexample: the reply endpoint answers 500 — not in the 2xx
range — yet `reply` returns success, not a `Reply` error. -/
theorem c3_non_2xx_counterexample :
    sendReply500 "cached-token" fixtureReply = .ok { status := 500, body := "ERR" }
    ∧ ¬(200 ≤ 500 ∧ 500 ≤ 299)
    ∧ reply.reply sendReply500 "cached-token" fixtureReply = .ok () :=
  ⟨rfl, by decide, rfl⟩

/-- C3 amended: whenever the HTTP send itself succeeds, `reply` returns
`Ok(())` regardless of the response status — a non-2xx status is only
logged, never surfaced as an error. -/
theorem c3_reply_best_effort
    (send : String → Reply → Except ReqwestError HttpResponse)
    (access_token : String) (r : Reply) (res : HttpResponse)
    (h : send access_token r = .ok res) :
    reply.reply send access_token r = .ok () := by
  unfold reply.reply
  rw [h]

/-- C3 amended witness: a 500 response still yields `Ok(())`. -/
theorem c3_reply_best_effort_witness :
    reply.reply sendReply500 "cached-token" fixtureReply = .ok () :=
  c3_reply_best_effort sendReply500 "cached-token" fixtureReply
    { status := 500, body := "ERR" } rfl

/-- C8: for a registered channel `C`, `sign(C.id, M, digest)` succeeds
exactly when `digest` equals the keyed HMAC-SHA256-base64 hash of `M` under
`C`'s secret, and for any other digest it returns the `Signature` error
(so in particular for a mutated digest, and for a mutated message whenever
the keyed hash of the mutated message differs from the original's). -/
theorem c8_sign_iff_digest_matches (api : MessagingApi)
    (hmacSha256Base64 : String → String → List Nat)
    (channel_id : Nat) (C : Channel) (M : String) (digest : List Nat)
    (hch : api.get_channel channel_id = .ok C) :
    (api.sign hmacSha256Base64 channel_id M digest = .ok ()
      ↔ digest = hmacSha256Base64 C.secret M)
    ∧ (digest ≠ hmacSha256Base64 C.secret M →
        api.sign hmacSha256Base64 channel_id M digest
          = .error (.Signature signature_error_message)) := by
  by_cases hd : digest = hmacSha256Base64 C.secret M
  · constructor
    · simp [MessagingApi.sign, hch, Algorithm.verify, hd]
    · intro hne
      exact absurd hd hne
  · constructor
    · simp [MessagingApi.sign, hch, Algorithm.verify, hd]
    · intro _
      simp [MessagingApi.sign, hch, Algorithm.verify, hd]

/-- C8 witness: with the concrete keyed hash `hmac0`, the correct digest of
`"m"` under `cachedChannel`'s secret is accepted and a different digest is
rejected with the `Signature` error. -/
theorem c8_sign_iff_digest_matches_witness :
    fixtureApi.sign hmac0 1 "m" [6, 1] = .ok ()
    ∧ fixtureApi.sign hmac0 1 "m" [0] = .error (.Signature signature_error_message) :=
  ⟨(c8_sign_iff_digest_matches fixtureApi hmac0 1 cachedChannel "m" [6, 1] rfl).1.mpr
      (by decide),
   (c8_sign_iff_digest_matches fixtureApi hmac0 1 cachedChannel "m" [0] rfl).2
      (by decide)⟩

/-- C1 counterexample: `unfollowEvent` carries no reply token, the handler
returns a reply, and `MessagingApi::handle_event` still hands that reply to
the transport carrying the empty placeholder token `""`. -/
theorem c1_empty_token_sent_counterexample :
    unfollowEvent.get_reply_token = none
    ∧ (MessagingApi.handle_event fixtureApi sendForm200 decodeBody0 decodeErrorBody0
        sendReplyOk 1 unfollowEvent).2.2.1
      = [("cached-token", { reply_token := "", messages := [ReplyMessage.Text "hi"],
                            notification_disabled := false })] :=
  ⟨rfl, rfl⟩

/-- C1 amended: when the handler returns a reply, every reply handed to the
transport carries the event's reply token when the event has one; when the
event carries no reply token the reply is nevertheless sent, carrying the
handler's token unchanged (the empty placeholder for handler-built
replies). -/
theorem c1_stitch_before_send (api : MessagingApi)
    (send : List (String × String) → Except ReqwestError HttpResponse)
    (decodeBody : String → Option ResponseBody)
    (decodeErrorBody : String → Option ErrorResponseBody)
    (sendReply : String → Reply → Except ReqwestError HttpResponse)
    (channel_id : Nat) (event : WebhookEvent) (channel : Channel) (r : Reply) (tok : String)
    (hch : api.get_channel channel_id = .ok channel)
    (hh : channel.handler event = some r)
    (ht : channel.access_token = some tok) :
    (MessagingApi.handle_event api send decodeBody decodeErrorBody sendReply
        channel_id event).2.2.1
      = [(tok, match event.get_reply_token with
               | some t => { r with reply_token := t }
               | none => r)] := by
  simp only [MessagingApi.handle_event, hch]
  simp only [Channel.handle_event, hh]
  cases hrt : event.get_reply_token with
  | some t =>
    simp only [hrt, MessagingApi.get_access_token, ht, reply.reply]
    cases hs : sendReply tok { r with reply_token := t } <;> simp [hs]
  | none =>
    simp only [hrt, MessagingApi.get_access_token, ht, reply.reply]
    cases hs : sendReply tok r <;> simp [hs]

/-- C1 amended witness: a follow event with token `"tok1"` results in
exactly one reply handed to the transport, carrying `"tok1"`. -/
theorem c1_stitch_before_send_witness :
    (MessagingApi.handle_event fixtureApi sendForm200 decodeBody0 decodeErrorBody0
        sendReplyOk 1 followEvent).2.2.1
      = [("cached-token", { reply_token := "tok1", messages := [ReplyMessage.Text "hi"],
                            notification_disabled := false })] :=
  c1_stitch_before_send fixtureApi sendForm200 decodeBody0 decodeErrorBody0
    sendReplyOk 1 followEvent cachedChannel fixtureReply "cached-token" rfl rfl rfl

/-- C9: in the spec-modelled pipeline, when the body parses and the
destination resolves to a registered channel but the digest does not match
the channel's keyed hash of the raw body, the delivery is rejected with the
`Signature` error, nothing is sent, the registry is untouched, and the
handler is invoked zero times. -/
theorem c9_signature_verified_before_dispatch (api : MessagingApi)
    (key : String → Nat) (hmacSha256Base64 : String → String → List Nat)
    (send : List (String × String) → Except ReqwestError HttpResponse)
    (decodeBody : String → Option ResponseBody)
    (decodeErrorBody : String → Option ErrorResponseBody)
    (sendReply : String → Reply → Except ReqwestError HttpResponse)
    (parseJson : String → Except RequestBodyError RequestBody)
    (raw_body : String) (digest : List Nat) (body : RequestBody) (channel : Channel)
    (hp : RequestBody.try_from parseJson raw_body = .ok body)
    (hch : api.get_channel (key body.destination) = .ok channel)
    (hv : digest ≠ hmacSha256Base64 channel.secret body.src) :
    handle_webhook api key hmacSha256Base64 send decodeBody decodeErrorBody sendReply
        parseJson raw_body digest
      = (.error (.Linebot (.Signature signature_error_message)), api, [], 0) := by
  have hsign : api.sign hmacSha256Base64 (key body.destination) body.src digest
      = .error (.Signature signature_error_message) := by
    simp [MessagingApi.sign, hch, Algorithm.verify, hv]
  unfold handle_webhook
  rw [hp]
  simp only [hsign]

/-- C9 witness: a delivery parsing to destination `"U123"` (with one follow
event) and a wrong digest is rejected with the `Signature` error, with zero
handler invocations and nothing sent. -/
theorem c9_signature_verified_before_dispatch_witness :
    handle_webhook fixtureApi key0 hmac0 sendForm200 decodeBody0 decodeErrorBody0
        sendReplyOk parseJson0 "rawbody" [0]
      = (.error (.Linebot (.Signature signature_error_message)), fixtureApi, [], 0) :=
  c9_signature_verified_before_dispatch fixtureApi key0 hmac0 sendForm200 decodeBody0
    decodeErrorBody0 sendReplyOk parseJson0 "rawbody" [0]
    { destination := "U123", events := [followEvent], src := "rawbody" }
    cachedChannel rfl rfl (by decide)
